import Mathlib

/-!
Verification of the safest-path subsystem of the Crime_Analysis_backend
repository.  The definitions below are a shallow embedding of the
JavaScript source (`utils/pathfindingAlgorithm.js`, the grid A* variant,
and the route handler in `src/routes/safePath.js`).

Modelling conventions:
* geographic coordinates are embedded as exact rationals (ℚ); the scoring
  pipeline, which uses `Math.exp` and the haversine formula, lives in ℝ;
* a crime record's position is `Option (ℚ × ℚ)` — `some (lat, lng)` for a
  record whose coordinates parse (whether they arrive nested under
  `crime_locations` or flat), `none` for a record with no usable
  coordinates (missing shape, or `parseFloat` producing NaN);
* network calls to the OpenRouteService provider are modelled as oracle
  inputs (`Attempt`/`Except` values supplied to the function), and the
  functions additionally report how many network requests they issued so
  that "no provider call is made" is a provable statement.
-/

/-- A latitude/longitude pair, as used for start/end points ({lat, lng} in
the source). -/
structure GeoPoint where
  lat : ℚ
  lng : ℚ
deriving DecidableEq

/-- A crime incident as consumed by the pathfinding code: an optional
parsed position and a free-text `crime_type` label. -/
structure Crime where
  loc : Option (ℚ × ℚ)
  crime_type : String
deriving DecidableEq

/-- A route as returned by the provider client: `coordinates` is an ordered
list of `[longitude, latitude]` pairs, plus distance/duration metadata. -/
structure RouteR where
  coordinates : List (ℚ × ℚ)
  distance : ℝ
  duration : ℝ

/-- Severity weight table of `getCrimeSeverityWeight` (the avoidance-policy
variant of the file): violent 22, property 11, other 5. -/
def getCrimeSeverityWeight (crime : Crime) : ℚ :=
  let crimeType := crime.crime_type.toLower
  if ["homicide", "murder", "assault", "robbery", "rape"].contains crimeType then 22
  else if ["theft", "burglary", "auto theft"].contains crimeType then 11
  else 5

theorem getCrimeSeverityWeight_pos (crime : Crime) : 0 < getCrimeSeverityWeight crime := by
  unfold getCrimeSeverityWeight
  dsimp only
  split
  · norm_num
  · split <;> norm_num

/-- JavaScript `Math.atan2`, written piecewise in terms of `Real.arctan`. -/
noncomputable def atan2 (y x : ℝ) : ℝ :=
  if 0 < x then Real.arctan (y / x)
  else if x < 0 ∧ 0 ≤ y then Real.arctan (y / x) + Real.pi
  else if x < 0 ∧ y < 0 then Real.arctan (y / x) - Real.pi
  else if x = 0 ∧ 0 < y then Real.pi / 2
  else if x = 0 ∧ y < 0 then -(Real.pi / 2)
  else 0

/-- Haversine great-circle distance in meters (`calculateDistance` in the
source, Earth radius 6371e3). -/
noncomputable def calculateDistance (lat1 lon1 lat2 lon2 : ℚ) : ℝ :=
  let R : ℝ := 6371000
  let phi1 : ℝ := (lat1 : ℝ) * Real.pi / 180
  let phi2 : ℝ := (lat2 : ℝ) * Real.pi / 180
  let dphi : ℝ := ((lat2 : ℝ) - (lat1 : ℝ)) * Real.pi / 180
  let dlam : ℝ := ((lon2 : ℝ) - (lon1 : ℝ)) * Real.pi / 180
  let a := Real.sin (dphi / 2) * Real.sin (dphi / 2) +
    Real.cos phi1 * Real.cos phi2 * (Real.sin (dlam / 2) * Real.sin (dlam / 2))
  let c := 2 * atan2 (Real.sqrt a) (Real.sqrt (1 - a))
  R * c

theorem atan2_zero_one : atan2 0 1 = Real.arctan 0 := by
  unfold atan2
  rw [if_pos one_pos]
  norm_num

theorem calculateDistance_self (lat lng : ℚ) : calculateDistance lat lng lat lng = 0 := by
  unfold calculateDistance
  have h0 : ((lat : ℝ) - (lat : ℝ)) * Real.pi / 180 / 2 = 0 := by ring
  have h1 : ((lng : ℝ) - (lng : ℝ)) * Real.pi / 180 / 2 = 0 := by ring
  dsimp only
  rw [h0, h1, Real.sin_zero]
  norm_num
  rw [atan2_zero_one, Real.arctan_zero]

/-- Exponentially decayed severity contribution of one incident to one
route point: `severity * Math.exp(-distance / 200)` in the source. -/
noncomputable def crimeImpact (severity : ℚ) (distance : ℝ) : ℝ :=
  (severity : ℝ) * Real.exp (-distance / 200)

/-- A crime position paired with its severity weight, as produced by the
`crimeCoordinates` extraction inside `scoreRouteByCrimeSafety`. -/
structure CrimeCoord where
  lat : ℚ
  lng : ℚ
  severity : ℚ
deriving DecidableEq

/-- The `crimeData.map(...).filter(coord => coord !== null)` extraction of
`scoreRouteByCrimeSafety`: records with a parseable position keep their
coordinates and severity weight, the rest are dropped. -/
def extractCrimeCoordinates (crimeData : List Crime) : List CrimeCoord :=
  crimeData.filterMap fun crime =>
    match crime.loc with
    | some (lat, lng) => some ⟨lat, lng, getCrimeSeverityWeight crime⟩
    | none => none

open Classical in
/-- Per-point contribution sum (`segmentScore` accumulation in the source):
incidents within the 1200 m cutoff contribute `crimeImpact`, others zero. -/
noncomputable def segmentScore (lat lng : ℚ) (crimeCoordinates : List CrimeCoord) : ℝ :=
  crimeCoordinates.foldl
    (fun acc crime =>
      let distance := calculateDistance lat lng crime.lat crime.lng
      if distance ≤ 1200 then acc + crimeImpact crime.severity distance else acc)
    0

/-- A route together with the outputs of `scoreRouteByCrimeSafety`. -/
structure ScoredRoute where
  coordinates : List (ℚ × ℚ)
  distance : ℝ
  duration : ℝ
  crimeScore : ℝ
  highRiskSegments : ℕ
  highRiskRatio : ℝ

/-- Threshold above which a single route point counts as high-risk
(`SEGMENT_RISK_THRESHOLD = 5`). -/
def SEGMENT_RISK_THRESHOLD : ℝ := 5

open Classical in
/-- Embedding of `scoreRouteByCrimeSafety` (exponential-decay variant):
empty crime data short-circuits to score 0; otherwise every route point
`[lng, lat]` accumulates decayed contributions of the incidents within
1200 m, points whose own sum exceeds 5 are counted as high risk, and the
final score is `(total / pointCount) * (1 + highRiskRatio * 3)`. -/
noncomputable def scoreRouteByCrimeSafety (route : RouteR) (crimeData : List Crime) :
    ScoredRoute :=
  if crimeData = [] then
    ⟨route.coordinates, route.distance, route.duration, 0, 0, 0⟩
  else
    let crimeCoordinates := extractCrimeCoordinates crimeData
    let acc := route.coordinates.foldl
      (fun (acc : ℝ × ℕ) point =>
        let s := segmentScore point.2 point.1 crimeCoordinates
        (acc.1 + s, if SEGMENT_RISK_THRESHOLD < s then acc.2 + 1 else acc.2))
      (0, 0)
    let crimeScore := acc.1
    let highRiskSegments := acc.2
    let normalizedScore := crimeScore / (route.coordinates.length : ℝ)
    let highRiskRatio := (highRiskSegments : ℝ) / (route.coordinates.length : ℝ)
    ⟨route.coordinates, route.distance, route.duration,
      normalizedScore * (1 + highRiskRatio * 3), highRiskSegments, highRiskRatio⟩

/-- Claim C5: for every route, scoring against the empty incident set
yields a crime score of exactly 0 (the scorer's empty-data guard), and in
this total embedding no error can be raised. -/
theorem scoreRoute_empty_incidents (route : RouteR) (h : route.coordinates ≠ []) :
    (scoreRouteByCrimeSafety route []).crimeScore = 0 := by
  unfold scoreRouteByCrimeSafety
  simp

theorem scoreRoute_empty_incidents_witness :
    ([((73 : ℚ), (33 : ℚ))] ≠ ([] : List (ℚ × ℚ))) ∧
      (scoreRouteByCrimeSafety ⟨[((73 : ℚ), (33 : ℚ))], 0, 0⟩ []).crimeScore = 0 :=
  ⟨by simp, scoreRoute_empty_incidents ⟨[((73 : ℚ), (33 : ℚ))], 0, 0⟩ (by simp)⟩

/-- Claim C6: the per-point contribution is strictly monotone in
proximity — for a fixed incident, moving it from distance `d2` to a
strictly smaller distance `d1` (both under the 1200 m cutoff) strictly
increases its contribution `severity * exp(-d/200)`. -/
theorem crimeImpact_strict_antitone (c : Crime) (d1 d2 : ℝ)
    (h12 : d1 < d2) (h2 : d2 ≤ 1200) :
    crimeImpact (getCrimeSeverityWeight c) d2 < crimeImpact (getCrimeSeverityWeight c) d1 := by
  unfold crimeImpact
  have hw : (0 : ℝ) < (getCrimeSeverityWeight c : ℝ) := by
    exact_mod_cast getCrimeSeverityWeight_pos c
  have hexp : Real.exp (-d2 / 200) < Real.exp (-d1 / 200) := by
    rw [Real.exp_lt_exp]
    linarith
  exact mul_lt_mul_of_pos_left hexp hw

theorem crimeImpact_strict_antitone_witness :
    crimeImpact (getCrimeSeverityWeight ⟨none, "murder"⟩) 200 <
      crimeImpact (getCrimeSeverityWeight ⟨none, "murder"⟩) 100 :=
  crimeImpact_strict_antitone ⟨none, "murder"⟩ 100 200 (by norm_num) (by norm_num)

/-- Coordinate range validation of `validateCoordinates`: latitude within
[-90, 90] and longitude within [-180, 180] (the `typeof` number check of
the source is subsumed by the ℚ typing). -/
def validateCoordinates (lat lng : ℚ) : Bool :=
  decide (-90 ≤ lat ∧ lat ≤ 90 ∧ -180 ≤ lng ∧ lng ≤ 180)

/-- Outcome of one network request to the routing provider, as seen by the
caller after response parsing: either a successfully parsed route or a
failure (timeout, non-2xx status, missing features, malformed body). -/
inductive Attempt where
  | success (r : RouteR)
  | failure

/-- Sequentially consume attempt outcomes until one succeeds, returning the
first successful route (if any) and the number of requests issued.  This
models the `while (retries > 0)` loop of `getRouteWithoutAvoidance`. -/
def tryAttempts : List Attempt → Option RouteR × ℕ
  | [] => (none, 0)
  | .success r :: _ => (some r, 1)
  | .failure :: rest =>
    let t := tryAttempts rest
    (t.1, t.2 + 1)

/-- The last-resort synthesized route of `getSimpleFallbackRoute`: a
straight line of exactly the two endpoints, with haversine distance and
duration 0. -/
noncomputable def getSimpleFallbackRoute (s e : GeoPoint) : RouteR :=
  { coordinates := [(s.lng, s.lat), (e.lng, e.lat)]
    distance := calculateDistance s.lat s.lng e.lat e.lng
    duration := 0 }

/-- Embedding of `getRouteWithoutAvoidance`.  The whole body runs inside
one try block: out-of-range coordinates throw the invalid-coordinates
error, but that throw is caught by the function's own catch, which skips
the primary POST (and its retries) and still issues one
alternative-endpoint request before falling back to the synthesized
straight-line route.  With valid coordinates the primary request is
attempted with retries (`primaries`, three attempts in the source); its
failure reaches the same catch: alternative endpoint, then the degenerate
fallback, which never fails — so the source's final rethrow is dead code
and no `.error` is ever returned.  The second component counts the network
requests issued. -/
noncomputable def getRouteWithoutAvoidance (s e : GeoPoint)
    (primaries : List Attempt) (alt : Attempt) : Except String RouteR × ℕ :=
  if validateCoordinates s.lat s.lng && validateCoordinates e.lat e.lng then
    match tryAttempts primaries with
    | (some r, n) => (.ok r, n)
    | (none, n) =>
      match alt with
      | .success r => (.ok r, n + 1)
      | .failure => (.ok (getSimpleFallbackRoute s e), n + 1)
  else
    match alt with
    | .success r => (.ok r, 1)
    | .failure => (.ok (getSimpleFallbackRoute s e), 1)

/-- Counterexample to claim C3 as stated: with an out-of-range start
latitude (91), route acquisition does not fail fast — one
alternative-endpoint request is issued and the synthesized two-point
route is returned (`.ok` with request count 1), not an invalid-input
error before any network call. -/
theorem getRoute_invalid_input_counterexample :
    getRouteWithoutAvoidance ⟨91, 73⟩ ⟨33, 73⟩ [.failure, .failure, .failure] .failure
      = (.ok (getSimpleFallbackRoute ⟨91, 73⟩ ⟨33, 73⟩), 1) := by
  unfold getRouteWithoutAvoidance
  rw [if_neg (by decide)]

/-- Claim C3 (amended): when some coordinate of either endpoint lies
outside the valid latitude range [-90, 90] or longitude range [-180, 180],
the thrown validation error is caught by the function's own fallback
chain: the primary request and its retries are skipped, but exactly one
alternative-endpoint request is still issued, and the caller receives the
alternative route or the synthesized two-point route — never an
invalid-input error. -/
theorem getRoute_invalid_input_skips_primary (s e : GeoPoint)
    (primaries : List Attempt) (alt : Attempt)
    (h : s.lat < -90 ∨ 90 < s.lat ∨ s.lng < -180 ∨ 180 < s.lng
      ∨ e.lat < -90 ∨ 90 < e.lat ∨ e.lng < -180 ∨ 180 < e.lng) :
    getRouteWithoutAvoidance s e primaries alt
      = (match alt with
         | .success r => (.ok r, 1)
         | .failure => (.ok (getSimpleFallbackRoute s e), 1)) := by
  unfold getRouteWithoutAvoidance
  have hv : ¬ (validateCoordinates s.lat s.lng && validateCoordinates e.lat e.lng) = true := by
    simp only [validateCoordinates, Bool.and_eq_true, decide_eq_true_eq]
    rintro ⟨⟨hs1, hs2, hs3, hs4⟩, he1, he2, he3, he4⟩
    rcases h with h | h | h | h | h | h | h | h <;> linarith
  rw [if_neg hv]

theorem getRoute_invalid_input_skips_primary_witness :
    getRouteWithoutAvoidance ⟨91, 73⟩ ⟨33, 73⟩ [.failure, .failure, .failure]
        (.success ⟨[((73 : ℚ), (33 : ℚ))], 0, 0⟩)
      = (.ok ⟨[((73 : ℚ), (33 : ℚ))], 0, 0⟩, 1) :=
  getRoute_invalid_input_skips_primary ⟨91, 73⟩ ⟨33, 73⟩ [.failure, .failure, .failure]
    (.success ⟨[((73 : ℚ), (33 : ℚ))], 0, 0⟩) (by norm_num)

theorem tryAttempts_all_failure (primaries : List Attempt)
    (hp : ∀ a ∈ primaries, a = .failure) :
    tryAttempts primaries = (none, primaries.length) := by
  induction primaries with
  | nil => rfl
  | cons a rest ih =>
    have ha := hp a (List.mem_cons_self a rest)
    subst ha
    have := ih (fun x hx => hp x (List.mem_cons_of_mem _ hx))
    simp [tryAttempts, this]

/-- Claim C4: with valid endpoints, when every networked strategy fails —
all primary attempts and the alternative endpoint — the client returns the
synthesized degenerate route (exactly the two endpoints, haversine
distance, duration 0) rather than an error. -/
theorem getRoute_all_failures_degenerate (s e : GeoPoint)
    (primaries : List Attempt) (alt : Attempt)
    (hv : (validateCoordinates s.lat s.lng && validateCoordinates e.lat e.lng) = true)
    (hp : ∀ a ∈ primaries, a = .failure) (ha : alt = .failure) :
    getRouteWithoutAvoidance s e primaries alt
      = (.ok { coordinates := [(s.lng, s.lat), (e.lng, e.lat)]
               distance := calculateDistance s.lat s.lng e.lat e.lng
               duration := 0 },
         primaries.length + 1) := by
  subst ha
  unfold getRouteWithoutAvoidance
  rw [if_pos hv, tryAttempts_all_failure primaries hp]
  rfl

theorem getRoute_all_failures_degenerate_witness :
    getRouteWithoutAvoidance ⟨33, 73⟩ ⟨34, 74⟩
        [.failure, .failure, .failure] .failure
      = (.ok { coordinates := [((73 : ℚ), (33 : ℚ)), ((74 : ℚ), (34 : ℚ))]
               distance := calculateDistance 33 73 34 74
               duration := 0 },
         3 + 1) :=
  getRoute_all_failures_degenerate ⟨33, 73⟩ ⟨34, 74⟩
    [.failure, .failure, .failure] .failure (by decide)
    (by
      intro a ha
      simp only [List.mem_cons, List.not_mem_nil, or_false] at ha
      rcases ha with rfl | rfl | rfl <;> rfl) rfl

/-- Grid cell edge length used by `identifyHighCrimeAreas`
(`GRID_SIZE = 0.002`, written as an exact rational). -/
def GRID_SIZE : ℚ := 2 / 1000

/-- Aggregate state of one clustering grid cell: incident count, severity
sum and the severity-weighted centroid.  The source object also carries a
`crimes` array that is appended to but never read afterwards; it is
omitted here. -/
structure GridCellData where
  count : ℕ
  totalSeverity : ℚ
  centerLat : ℚ
  centerLng : ℚ
deriving DecidableEq

/-- State of a freshly created cell after folding in its first incident:
the initializer block (`count: 0, totalSeverity: 0, center := position`)
followed by the unconditional `count++` / `totalSeverity += severity`. -/
def initCell (lat lng w : ℚ) : GridCellData := ⟨1, w, lat, lng⟩

/-- Folding one more incident into an existing cell: the weighted-average
centroid update using the old severity sum, then the unconditional count
and severity increments. -/
def applyCrime (cell : GridCellData) (lat lng w : ℚ) : GridCellData :=
  let cellWeight := cell.totalSeverity
  let newWeight := cellWeight + w
  { count := cell.count + 1
    totalSeverity := newWeight
    centerLat := (cell.centerLat * cellWeight + lat * w) / newWeight
    centerLng := (cell.centerLng * cellWeight + lng * w) / newWeight }

/-- Key and payload a crime contributes to the clustering grid:
`(floor(lng/GRID_SIZE), floor(lat/GRID_SIZE))` with the position and
severity weight; `none` when the record has no parseable coordinates
(such records are silently skipped). -/
def crimeCellEntry (crime : Crime) : Option ((ℤ × ℤ) × (ℚ × ℚ × ℚ)) :=
  match crime.loc with
  | none => none
  | some (lat, lng) =>
      some ((⌊lng / GRID_SIZE⌋, ⌊lat / GRID_SIZE⌋), (lat, lng, getCrimeSeverityWeight crime))

/-- Lookup in the association-list representation of the JS grid object. -/
def gridLookup : List ((ℤ × ℤ) × GridCellData) → (ℤ × ℤ) → Option GridCellData
  | [], _ => none
  | (k', cell) :: rest, k => if k' = k then some cell else gridLookup rest k

/-- Update the grid at key `k` with one incident: fold into the existing
cell if the key is present, otherwise create the cell (JS property
insertion appends in key-iteration order). -/
def updateCell : List ((ℤ × ℤ) × GridCellData) → (ℤ × ℤ) → ℚ → ℚ → ℚ →
    List ((ℤ × ℤ) × GridCellData)
  | [], k, lat, lng, w => [(k, initCell lat lng w)]
  | (k', cell) :: rest, k, lat, lng, w =>
    if k' = k then (k', applyCrime cell lat lng w) :: rest
    else (k', cell) :: updateCell rest k lat lng w

/-- One step of the `crimeData.forEach` clustering fold. -/
def gridStep (grid : List ((ℤ × ℤ) × GridCellData)) (crime : Crime) :
    List ((ℤ × ℤ) × GridCellData) :=
  match crimeCellEntry crime with
  | none => grid
  | some (k, (lat, lng, w)) => updateCell grid k lat lng w

/-- The clustering grid built by `identifyHighCrimeAreas` from the incident
list. -/
def clusterGrid (crimeData : List Crime) : List ((ℤ × ℤ) × GridCellData) :=
  crimeData.foldl gridStep []

theorem gridLookup_updateCell_self (g : List ((ℤ × ℤ) × GridCellData))
    (k : ℤ × ℤ) (lat lng w : ℚ) :
    gridLookup (updateCell g k lat lng w) k
      = some (match gridLookup g k with
              | none => initCell lat lng w
              | some cell => applyCrime cell lat lng w) := by
  induction g with
  | nil => simp [updateCell, gridLookup]
  | cons kc rest ih =>
    obtain ⟨k', cell⟩ := kc
    by_cases hk : k' = k
    · subst hk
      simp [updateCell, gridLookup]
    · simp [updateCell, gridLookup, hk, ih]

theorem gridLookup_updateCell_other (g : List ((ℤ × ℤ) × GridCellData))
    (k k' : ℤ × ℤ) (lat lng w : ℚ) (hne : k' ≠ k) :
    gridLookup (updateCell g k lat lng w) k' = gridLookup g k' := by
  induction g with
  | nil =>
    simp only [updateCell, gridLookup]
    rw [if_neg fun h => hne h.symm]
  | cons kc rest ih =>
    obtain ⟨k'', cell⟩ := kc
    by_cases hk : k'' = k
    · subst hk
      simp only [updateCell, if_pos rfl, gridLookup]
      rw [if_neg fun h => hne h.symm, if_neg fun h => hne h.symm]
    · simp only [updateCell, if_neg hk, gridLookup, ih]

/-- Folding one incident payload into an optional cell state. -/
def cellAggStep (o : Option GridCellData) (e : ℚ × ℚ × ℚ) : Option GridCellData :=
  match o with
  | none => some (initCell e.1 e.2.1 e.2.2)
  | some cell => some (applyCrime cell e.1 e.2.1 e.2.2)

/-- The subsequence of incident payloads that land in cell `k`. -/
def entriesFor (k : ℤ × ℤ) (crimeData : List Crime) : List (ℚ × ℚ × ℚ) :=
  crimeData.filterMap fun c =>
    match crimeCellEntry c with
    | some (k', d) => if k' = k then some d else none
    | none => none

theorem gridLookup_foldl (crimeData : List Crime) (k : ℤ × ℤ)
    (g : List ((ℤ × ℤ) × GridCellData)) :
    gridLookup (crimeData.foldl gridStep g) k
      = (entriesFor k crimeData).foldl cellAggStep (gridLookup g k) := by
  induction crimeData generalizing g with
  | nil => simp [entriesFor]
  | cons c cs ih =>
    rw [List.foldl_cons, ih]
    rcases hc : crimeCellEntry c with _ | ⟨k', lat, lng, w⟩
    · have hstep : gridStep g c = g := by simp [gridStep, hc]
      have hent : entriesFor k (c :: cs) = entriesFor k cs := by
        simp [entriesFor, hc]
      rw [hstep, hent]
    · by_cases hk : k' = k
      · subst hk
        have hstep : gridLookup (gridStep g c) k' = cellAggStep (gridLookup g k') (lat, lng, w) := by
          simp only [gridStep, hc]
          rw [gridLookup_updateCell_self]
          rcases gridLookup g k' with _ | cell <;> rfl
        have hent : entriesFor k' (c :: cs) = (lat, lng, w) :: entriesFor k' cs := by
          simp [entriesFor, hc]
        rw [hstep, hent, List.foldl_cons]
      · have hstep : gridLookup (gridStep g c) k = gridLookup g k := by
          simp only [gridStep, hc]
          exact gridLookup_updateCell_other g k' k lat lng w (Ne.symm hk)
        have hent : entriesFor k (c :: cs) = entriesFor k cs := by
          simp [entriesFor, hc, hk]
        rw [hstep, hent]

theorem gridLookup_clusterGrid (crimeData : List Crime) (k : ℤ × ℤ) :
    gridLookup (clusterGrid crimeData) k
      = (entriesFor k crimeData).foldl cellAggStep none := by
  unfold clusterGrid
  rw [gridLookup_foldl]
  rfl

/-- Severity-sum of a list of incident payloads. -/
def sumW (l : List (ℚ × ℚ × ℚ)) : ℚ := (l.map fun e => e.2.2).sum

/-- Severity-weighted latitude sum of a list of incident payloads. -/
def sumLatW (l : List (ℚ × ℚ × ℚ)) : ℚ := (l.map fun e => e.1 * e.2.2).sum

/-- Severity-weighted longitude sum of a list of incident payloads. -/
def sumLngW (l : List (ℚ × ℚ × ℚ)) : ℚ := (l.map fun e => e.2.1 * e.2.2).sum

theorem cellAgg_from_some (l : List (ℚ × ℚ × ℚ)) (n : ℕ) (W La Lo : ℚ)
    (hW : 0 < W) (hl : ∀ e ∈ l, 0 < e.2.2) :
    l.foldl cellAggStep (some ⟨n, W, La / W, Lo / W⟩)
      = some ⟨n + l.length, W + sumW l,
          (La + sumLatW l) / (W + sumW l), (Lo + sumLngW l) / (W + sumW l)⟩ := by
  induction l generalizing n W La Lo with
  | nil => simp [sumW, sumLatW, sumLngW]
  | cons e l ih =>
    obtain ⟨lat, lng, w⟩ := e
    have hw : 0 < w := hl (lat, lng, w) (List.mem_cons_self _ _)
    have hWw : 0 < W + w := by linarith
    rw [List.foldl_cons]
    have hstep : cellAggStep (some ⟨n, W, La / W, Lo / W⟩) (lat, lng, w)
        = some ⟨n + 1, W + w, (La + lat * w) / (W + w), (Lo + lng * w) / (W + w)⟩ := by
      simp only [cellAggStep, applyCrime]
      have hcl : La / W * W + lat * w = La + lat * w := by
        field_simp
      have hco : Lo / W * W + lng * w = Lo + lng * w := by
        field_simp
      simp [hcl, hco]
    rw [hstep, ih (n + 1) (W + w) (La + lat * w) (Lo + lng * w) hWw
      (fun x hx => hl x (List.mem_cons_of_mem _ hx))]
    simp only [sumW, sumLatW, sumLngW, List.map_cons, List.sum_cons, List.length_cons,
      Option.some.injEq, GridCellData.mk.injEq]
    refine ⟨by omega, by ring, by ring, by ring⟩

theorem cellAgg_char (l : List (ℚ × ℚ × ℚ)) (hl : ∀ e ∈ l, 0 < e.2.2) :
    l.foldl cellAggStep none
      = if l = [] then none
        else some ⟨l.length, sumW l, sumLatW l / sumW l, sumLngW l / sumW l⟩ := by
  rcases l with _ | ⟨⟨lat, lng, w⟩, l⟩
  · rfl
  · have hw : 0 < w := hl (lat, lng, w) (List.mem_cons_self _ _)
    rw [List.foldl_cons]
    have hinit : cellAggStep none (lat, lng, w)
        = some ⟨1, w, (lat * w) / w, (lng * w) / w⟩ := by
      simp only [cellAggStep, initCell]
      rw [mul_div_cancel_right₀ lat (ne_of_gt hw), mul_div_cancel_right₀ lng (ne_of_gt hw)]
    rw [hinit, cellAgg_from_some l 1 w (lat * w) (lng * w) hw
      (fun x hx => hl x (List.mem_cons_of_mem _ hx))]
    simp only [List.length_cons, sumW, sumLatW, sumLngW, List.map_cons, List.sum_cons]
    rw [if_neg (by simp)]
    simp only [Option.some.injEq, GridCellData.mk.injEq]
    refine ⟨by omega, by ring, by ring, by ring⟩

theorem entriesFor_pos (k : ℤ × ℤ) (crimeData : List Crime) :
    ∀ e ∈ entriesFor k crimeData, 0 < e.2.2 := by
  intro e he
  simp only [entriesFor, List.mem_filterMap] at he
  obtain ⟨c, _, heq⟩ := he
  rcases hcl : c.loc with _ | ⟨lat, lng⟩ <;> simp only [crimeCellEntry, hcl] at heq
  · exact absurd heq (by simp)
  · by_cases hk : ((⌊lng / GRID_SIZE⌋, ⌊lat / GRID_SIZE⌋) : ℤ × ℤ) = k
    · rw [if_pos hk] at heq
      obtain rfl := Option.some_injective _ heq
      exact getCrimeSeverityWeight_pos c
    · rw [if_neg hk] at heq
      exact absurd heq (by simp)

/-- Claim C7: hotspot clustering is order-independent — permuting the
incident list leaves every grid cell (key, count, severity sum and
severity-weighted centroid) unchanged, in exact arithmetic, because each
cell's state is the weighted mean of its incidents. -/
theorem clusterGrid_order_independent (cs cs' : List Crime)
    (h : cs.Perm cs') (k : ℤ × ℤ) :
    gridLookup (clusterGrid cs) k = gridLookup (clusterGrid cs') k := by
  rw [gridLookup_clusterGrid, gridLookup_clusterGrid,
    cellAgg_char _ (entriesFor_pos k cs), cellAgg_char _ (entriesFor_pos k cs')]
  have hperm : (entriesFor k cs).Perm (entriesFor k cs') := h.filterMap _
  by_cases hnil : entriesFor k cs = []
  · have hnil' : entriesFor k cs' = [] := by
      rw [hnil] at hperm
      exact hperm.symm.eq_nil
    rw [if_pos hnil, if_pos hnil']
  · have hnil' : entriesFor k cs' ≠ [] := by
      intro hx
      rw [hx] at hperm
      exact hnil hperm.eq_nil
    rw [if_neg hnil, if_neg hnil']
    have hlen := hperm.length_eq
    have hsw : sumW (entriesFor k cs) = sumW (entriesFor k cs') :=
      (hperm.map _).sum_eq
    have hsla : sumLatW (entriesFor k cs) = sumLatW (entriesFor k cs') :=
      (hperm.map _).sum_eq
    have hslo : sumLngW (entriesFor k cs) = sumLngW (entriesFor k cs') :=
      (hperm.map _).sum_eq
    rw [hlen, hsw, hsla, hslo]

theorem clusterGrid_order_independent_witness :
    gridLookup (clusterGrid [⟨some (33, 73), "murder"⟩, ⟨some (34, 74), "theft"⟩]) (36500, 16500)
      = gridLookup (clusterGrid [⟨some (34, 74), "theft"⟩, ⟨some (33, 73), "murder"⟩]) (36500, 16500) :=
  clusterGrid_order_independent _ _
    (List.Perm.swap ⟨some (34, 74), "theft"⟩ ⟨some (33, 73), "murder"⟩ []) (36500, 16500)

/-- Minimum incident count for a cell to qualify as high-risk
(`HIGH_CRIME_THRESHOLD = 1`). -/
def HIGH_CRIME_THRESHOLD : ℕ := 1

/-- Minimum severity sum for a cell to qualify as high-risk
(`HIGH_SEVERITY_THRESHOLD = 4`). -/
def HIGH_SEVERITY_THRESHOLD : ℚ := 4

/-- Qualification test of the region builder: count at or above the count
threshold OR severity sum at or above the severity threshold. -/
def qualifiesHighCrime (cell : GridCellData) : Bool :=
  decide (HIGH_CRIME_THRESHOLD ≤ cell.count ∨ HIGH_SEVERITY_THRESHOLD ≤ cell.totalSeverity)

/-- Avoidance radius in kilometers (`calculateAvoidanceRadius`): base 0.1,
plus up to 0.2 from count (0.02 each), plus up to 0.3 from severity
(0.01 each); constants written as exact rationals. -/
def calculateAvoidanceRadius (crimeCount : ℕ) (totalSeverity : ℚ) : ℚ :=
  let radius : ℚ := 1 / 10
  let radius := radius + min (2 / 10) ((crimeCount : ℚ) * (2 / 100))
  let radius := radius + min (3 / 10) (totalSeverity * (1 / 100))
  radius

/-- One avoidance-area record pushed by `identifyHighCrimeAreas` for a
qualifying cell, before the polygon itself is built: centroid, radius
(capped at 0.5 km), priority `severity + 2*count`, and the cell's
aggregates. -/
structure AvoidAreaRec where
  centerLat : ℚ
  centerLng : ℚ
  radius : ℚ
  priority : ℚ
  count : ℕ
  severity : ℚ
deriving DecidableEq

/-- Build the avoidance-area record of one qualifying cell. -/
def mkAvoidAreaRec (cell : GridCellData) : AvoidAreaRec :=
  { centerLat := cell.centerLat
    centerLng := cell.centerLng
    radius := min (5 / 10) (calculateAvoidanceRadius cell.count cell.totalSeverity)
    priority := cell.totalSeverity + cell.count * 2
    count := cell.count
    severity := cell.totalSeverity }

/-- Descending-priority comparison used to order avoidance areas
(`sort((a, b) => b.priority - a.priority)`). -/
def priorityGE (a b : AvoidAreaRec) : Prop := b.priority ≤ a.priority

instance : DecidableRel priorityGE := fun a b => inferInstanceAs (Decidable (_ ≤ _))

instance : IsTotal AvoidAreaRec priorityGE := ⟨fun a b => le_total b.priority a.priority⟩

instance : IsTrans AvoidAreaRec priorityGE := ⟨fun _ _ _ hab hbc => le_trans hbc hab⟩

/-- The qualifying cells of the clustering grid, in key-iteration order. -/
def qualifyingCells (crimeData : List Crime) : List ((ℤ × ℤ) × GridCellData) :=
  (clusterGrid crimeData).filter fun kc => qualifiesHighCrime kc.2

/-- The avoidance-area records of `identifyHighCrimeAreas`: one record per
qualifying cell, sorted by priority in descending order. -/
def avoidAreaRecords (crimeData : List Crime) : List AvoidAreaRec :=
  List.insertionSort priorityGE ((qualifyingCells crimeData).map fun kc => mkAvoidAreaRec kc.2)

/-- The 16-vertex circular polygon of `createCircularPolygon`, a closed
ring of `[lng, lat]` vertices around the centroid, with kilometers
converted to angular offsets (1° latitude = 111.32 km, longitude scaled by
cos of the latitude). -/
noncomputable def createCircularPolygon (centerLat centerLng radiusKm : ℚ) : List (ℝ × ℝ) :=
  let coords := (List.range 16).map fun i =>
    let angle := ((i : ℝ) / 16) * (2 * Real.pi)
    let dx := (radiusKm : ℝ) * Real.cos angle
    let dy := (radiusKm : ℝ) * Real.sin angle
    (((centerLng : ℝ) + dx / (111.32 * Real.cos ((centerLat : ℝ) * Real.pi / 180))),
      ((centerLat : ℝ) + dy / 111.32))
  coords ++ coords.take 1

/-- Embedding of `identifyHighCrimeAreas`: empty data yields no areas;
otherwise the circular polygons of the priority-sorted qualifying cells. -/
noncomputable def identifyHighCrimeAreas (crimeData : List Crime) : List (List (ℝ × ℝ)) :=
  if crimeData = [] then []
  else (avoidAreaRecords crimeData).map fun area =>
    createCircularPolygon area.centerLat area.centerLng area.radius

/-- Claim C8: the avoidance areas are sorted by priority in descending
order; the output is exactly one region per qualifying cell (a permutation
of the qualifying cells' records); and each region's priority is its
cell's severity sum plus twice its incident count. -/
theorem avoidAreas_sorted_by_priority (crimeData : List Crime) :
    List.Sorted priorityGE (avoidAreaRecords crimeData)
    ∧ (avoidAreaRecords crimeData).Perm
        ((qualifyingCells crimeData).map fun kc => mkAvoidAreaRec kc.2)
    ∧ ∀ area ∈ avoidAreaRecords crimeData,
        area.priority = area.severity + area.count * 2 := by
  refine ⟨List.sorted_insertionSort priorityGE _, List.perm_insertionSort priorityGE _, ?_⟩
  intro area ha
  have hmem : area ∈ (qualifyingCells crimeData).map fun kc => mkAvoidAreaRec kc.2 :=
    (List.perm_insertionSort priorityGE _).mem_iff.mp ha
  obtain ⟨kc, _, rfl⟩ := List.mem_map.mp hmem
  rfl

/-- A route vertex in the frontend shape produced by
`formatRouteForFrontend` ({longitude, latitude}).  The source's per-point
array-shape validation always succeeds on typed pairs, so the
null-filtering step keeps every point. -/
structure FrontendPoint where
  longitude : ℚ
  latitude : ℚ
deriving DecidableEq

/-- Embedding of `formatRouteForFrontend`: convert `[lng, lat]` pairs to
{longitude, latitude} records. -/
def formatRouteForFrontend (coordinates : List (ℚ × ℚ)) : List FrontendPoint :=
  coordinates.map fun point => ⟨point.1, point.2⟩

/-- Crime-score threshold under which the direct route is accepted
immediately (`LOW_CRIME_THRESHOLD = 0.8`). -/
noncomputable def LOW_CRIME_THRESHOLD : ℝ := 8 / 10

/-- Observable outcome of one `calculateSafestPath` run: the returned
path, whether exclusion regions were derived (`identifyHighCrimeAreas`
was invoked), and how many avoidance-route provider requests were made. -/
structure PolicyResult where
  path : List FrontendPoint
  regionsDerived : Bool
  avoidanceCalls : ℕ

open Classical in
/-- Embedding of the avoidance-policy `calculateSafestPath`.  The two
provider interactions are supplied as oracle results: `directResult` for
`getRouteWithoutAvoidance` (an `.error` models the thrown exception, which
the function propagates) and `avoidResult` for `getRouteAvoidingAreas`
(an `.error` models the caught `avoidError`).  The function mirrors the
source's control flow: empty direct route returns an empty path; a score
at or below the low-risk threshold returns the direct route immediately;
otherwise exclusion regions are derived, and when any exist the avoidance
route is requested, scored, and kept only when strictly better. -/
noncomputable def calculateSafestPath (s e : GeoPoint) (crimeData : List Crime)
    (directResult : Except String RouteR) (avoidResult : Except String RouteR) :
    Except String PolicyResult :=
  match directResult with
  | .error msg => .error msg
  | .ok directRoute =>
    if directRoute.coordinates = [] then .ok ⟨[], false, 0⟩
    else
      let scoredDirectRoute := scoreRouteByCrimeSafety directRoute crimeData
      if scoredDirectRoute.crimeScore ≤ LOW_CRIME_THRESHOLD then
        .ok ⟨formatRouteForFrontend scoredDirectRoute.coordinates, false, 0⟩
      else
        let avoidAreas := identifyHighCrimeAreas crimeData
        if avoidAreas = [] then
          .ok ⟨formatRouteForFrontend directRoute.coordinates, true, 0⟩
        else
          match avoidResult with
          | .ok safeRoute =>
            if safeRoute.coordinates ≠ [] then
              let scoredSafeRoute := scoreRouteByCrimeSafety safeRoute crimeData
              if scoredSafeRoute.crimeScore < scoredDirectRoute.crimeScore then
                .ok ⟨formatRouteForFrontend scoredSafeRoute.coordinates, true, 1⟩
              else
                .ok ⟨formatRouteForFrontend scoredDirectRoute.coordinates, true, 1⟩
            else
              .ok ⟨formatRouteForFrontend directRoute.coordinates, true, 1⟩
          | .error _ => .ok ⟨formatRouteForFrontend directRoute.coordinates, true, 1⟩

theorem scoreRoute_coordinates (route : RouteR) (crimeData : List Crime) :
    (scoreRouteByCrimeSafety route crimeData).coordinates = route.coordinates := by
  unfold scoreRouteByCrimeSafety
  split <;> rfl

theorem segmentScore_far (lat lng : ℚ) (ccs : List CrimeCoord)
    (h : ∀ cc ∈ ccs, ¬ calculateDistance lat lng cc.lat cc.lng ≤ 1200) :
    segmentScore lat lng ccs = 0 := by
  unfold segmentScore
  have haux : ∀ (acc : ℝ), ccs.foldl
      (fun acc crime =>
        let distance := calculateDistance lat lng crime.lat crime.lng
        if distance ≤ 1200 then acc + crimeImpact crime.severity distance else acc)
      acc = acc := by
    induction ccs with
    | nil => intro acc; rfl
    | cons cc rest ih =>
      intro acc
      rw [List.foldl_cons]
      have hcc := h cc (List.mem_cons_self _ _)
      simp only [if_neg hcc]
      exact ih (fun x hx => h x (List.mem_cons_of_mem _ hx)) acc
  exact haux 0

theorem scoreRoute_far (route : RouteR) (crimeData : List Crime)
    (h : ∀ p ∈ route.coordinates, ∀ cc ∈ extractCrimeCoordinates crimeData,
        ¬ calculateDistance p.2 p.1 cc.lat cc.lng ≤ 1200) :
    (scoreRouteByCrimeSafety route crimeData).crimeScore = 0 := by
  unfold scoreRouteByCrimeSafety
  by_cases hcd : crimeData = []
  · rw [if_pos hcd]
  · rw [if_neg hcd]
    have hfold : route.coordinates.foldl
        (fun (acc : ℝ × ℕ) point =>
          let s := segmentScore point.2 point.1 (extractCrimeCoordinates crimeData)
          (acc.1 + s, if SEGMENT_RISK_THRESHOLD < s then acc.2 + 1 else acc.2))
        (0, 0) = (0, 0) := by
      have haux : ∀ (coords : List (ℚ × ℚ)),
          (∀ p ∈ coords, ∀ cc ∈ extractCrimeCoordinates crimeData,
            ¬ calculateDistance p.2 p.1 cc.lat cc.lng ≤ 1200) →
          ∀ acc : ℝ × ℕ, coords.foldl
            (fun (acc : ℝ × ℕ) point =>
              let s := segmentScore point.2 point.1 (extractCrimeCoordinates crimeData)
              (acc.1 + s, if SEGMENT_RISK_THRESHOLD < s then acc.2 + 1 else acc.2))
            acc = acc := by
        intro coords
        induction coords with
        | nil => intro _ acc; rfl
        | cons p rest ih =>
          intro hco acc
          rw [List.foldl_cons]
          have hseg : segmentScore p.2 p.1 (extractCrimeCoordinates crimeData) = 0 :=
            segmentScore_far _ _ _ (hco p (List.mem_cons_self _ _))
          simp only [hseg, add_zero]
          have hnot : ¬ SEGMENT_RISK_THRESHOLD < (0 : ℝ) := by
            unfold SEGMENT_RISK_THRESHOLD
            norm_num
          simp only [if_neg hnot]
          exact ih (fun x hx => hco x (List.mem_cons_of_mem _ hx)) acc
      exact haux route.coordinates h (0, 0)
    simp only [hfold]
    norm_num

/-- Claim C2: a direct route scoring at or below the 0.8 low-risk
threshold is returned immediately — no exclusion regions derived, no
avoidance request issued; and when no incident with parseable coordinates
lies within the 1200 m scoring cutoff of any direct-route point, the
direct score is 0 and the route is accepted the same way. -/
theorem policy_low_risk_early_exit (s e : GeoPoint) (crimeData : List Crime)
    (r : RouteR) (avoidResult : Except String RouteR) (hr : r.coordinates ≠ []) :
    ((scoreRouteByCrimeSafety r crimeData).crimeScore ≤ LOW_CRIME_THRESHOLD →
      calculateSafestPath s e crimeData (.ok r) avoidResult
        = .ok ⟨formatRouteForFrontend r.coordinates, false, 0⟩)
    ∧ ((∀ p ∈ r.coordinates, ∀ cc ∈ extractCrimeCoordinates crimeData,
          ¬ calculateDistance p.2 p.1 cc.lat cc.lng ≤ 1200) →
        (scoreRouteByCrimeSafety r crimeData).crimeScore = 0
        ∧ calculateSafestPath s e crimeData (.ok r) avoidResult
            = .ok ⟨formatRouteForFrontend r.coordinates, false, 0⟩) := by
  have hexit : (scoreRouteByCrimeSafety r crimeData).crimeScore ≤ LOW_CRIME_THRESHOLD →
      calculateSafestPath s e crimeData (.ok r) avoidResult
        = .ok ⟨formatRouteForFrontend r.coordinates, false, 0⟩ := by
    intro hlow
    unfold calculateSafestPath
    dsimp only
    rw [if_neg hr]
    simp only [if_pos hlow, scoreRoute_coordinates]
  refine ⟨hexit, fun hfar => ?_⟩
  have hzero := scoreRoute_far r crimeData hfar
  refine ⟨hzero, hexit ?_⟩
  rw [hzero]
  unfold LOW_CRIME_THRESHOLD
  norm_num

theorem policy_low_risk_early_exit_witness :
    calculateSafestPath ⟨33, 73⟩ ⟨34, 74⟩ []
        (.ok ⟨[(73, 33), (74, 34)], 0, 0⟩) (.error "unused")
      = .ok ⟨formatRouteForFrontend [(73, 33), (74, 34)], false, 0⟩
    ∧ (scoreRouteByCrimeSafety ⟨[(73, 33), (74, 34)], 0, 0⟩ []).crimeScore = 0 := by
  have h := policy_low_risk_early_exit ⟨33, 73⟩ ⟨34, 74⟩ []
    ⟨[(73, 33), (74, 34)], 0, 0⟩ (.error "unused") (by simp)
  have hfar : ∀ p ∈ ([(73, 33), (74, 34)] : List (ℚ × ℚ)),
      ∀ cc ∈ extractCrimeCoordinates [], ¬ calculateDistance p.2 p.1 cc.lat cc.lng ≤ 1200 := by
    intro p _ cc hcc
    simp [extractCrimeCoordinates] at hcc
  exact ⟨(h.2 hfar).2, (h.2 hfar).1⟩

open Classical in
/-- Claim C1: whenever the avoidance route is obtained and scored (direct
route present, direct score above threshold, some exclusion regions, a
non-empty avoidance route), the returned route is the strictly-lower-score
one of the two, its score is never worse than the direct route's, and any
failure obtaining the avoidance route returns the direct route rather
than an error. -/
theorem policy_min_selection (s e : GeoPoint) (crimeData : List Crime) (r safe : RouteR)
    (hr : r.coordinates ≠ []) (hsafe : safe.coordinates ≠ [])
    (hhigh : LOW_CRIME_THRESHOLD < (scoreRouteByCrimeSafety r crimeData).crimeScore)
    (hareas : identifyHighCrimeAreas crimeData ≠ []) :
    (calculateSafestPath s e crimeData (.ok r) (.ok safe)
        = .ok ⟨formatRouteForFrontend
            (if (scoreRouteByCrimeSafety safe crimeData).crimeScore
                < (scoreRouteByCrimeSafety r crimeData).crimeScore
             then safe.coordinates else r.coordinates), true, 1⟩)
    ∧ (if (scoreRouteByCrimeSafety safe crimeData).crimeScore
          < (scoreRouteByCrimeSafety r crimeData).crimeScore
       then (scoreRouteByCrimeSafety safe crimeData).crimeScore
       else (scoreRouteByCrimeSafety r crimeData).crimeScore)
        ≤ (scoreRouteByCrimeSafety r crimeData).crimeScore
    ∧ ∀ err : String, calculateSafestPath s e crimeData (.ok r) (.error err)
        = .ok ⟨formatRouteForFrontend r.coordinates, true, 1⟩ := by
  have hnotlow : ¬ (scoreRouteByCrimeSafety r crimeData).crimeScore ≤ LOW_CRIME_THRESHOLD :=
    not_le.mpr hhigh
  refine ⟨?_, ?_, ?_⟩
  · unfold calculateSafestPath
    dsimp only
    rw [if_neg hr, if_neg hnotlow, if_neg hareas, if_pos hsafe]
    by_cases hcmp : (scoreRouteByCrimeSafety safe crimeData).crimeScore
        < (scoreRouteByCrimeSafety r crimeData).crimeScore
    · rw [if_pos hcmp, if_pos hcmp, scoreRoute_coordinates]
    · rw [if_neg hcmp, if_neg hcmp, scoreRoute_coordinates]
  · by_cases hcmp : (scoreRouteByCrimeSafety safe crimeData).crimeScore
        < (scoreRouteByCrimeSafety r crimeData).crimeScore
    · rw [if_pos hcmp]
      exact le_of_lt hcmp
    · rw [if_neg hcmp]
  · intro err
    unfold calculateSafestPath
    dsimp only
    rw [if_neg hr, if_neg hnotlow, if_neg hareas]

theorem getCrimeSeverityWeight_ge_five (crime : Crime) :
    5 ≤ getCrimeSeverityWeight crime := by
  unfold getCrimeSeverityWeight
  dsimp only
  split
  · norm_num
  · split <;> norm_num

theorem segmentScore_same_point (lat lng w : ℚ) :
    segmentScore lat lng [⟨lat, lng, w⟩] = (w : ℝ) := by
  unfold segmentScore
  rw [List.foldl_cons, List.foldl_nil]
  dsimp only
  rw [calculateDistance_self, if_pos (by norm_num)]
  unfold crimeImpact
  rw [neg_zero, zero_div, Real.exp_zero]
  norm_num

theorem scoreRoute_witness_high :
    LOW_CRIME_THRESHOLD < (scoreRouteByCrimeSafety ⟨[((73 : ℚ), (33 : ℚ))], 0, 0⟩
        [⟨some (33, 73), "murder"⟩]).crimeScore := by
  have hw : (5 : ℚ) ≤ getCrimeSeverityWeight ⟨some (33, 73), "murder"⟩ :=
    getCrimeSeverityWeight_ge_five _
  have hwR : (5 : ℝ) ≤ ((getCrimeSeverityWeight ⟨some (33, 73), "murder"⟩ : ℚ) : ℝ) := by
    exact_mod_cast hw
  unfold scoreRouteByCrimeSafety
  rw [if_neg (by simp)]
  have hex : extractCrimeCoordinates [⟨some (33, 73), "murder"⟩]
      = [⟨33, 73, getCrimeSeverityWeight ⟨some (33, 73), "murder"⟩⟩] := by
    unfold extractCrimeCoordinates
    rw [List.filterMap_cons, List.filterMap_nil]
  dsimp only
  rw [hex, List.foldl_cons, List.foldl_nil]
  dsimp only
  rw [segmentScore_same_point]
  unfold SEGMENT_RISK_THRESHOLD LOW_CRIME_THRESHOLD
  by_cases hcase : (5 : ℝ) < ((getCrimeSeverityWeight ⟨some (33, 73), "murder"⟩ : ℚ) : ℝ)
  · rw [if_pos hcase]
    push_cast
    norm_num
    nlinarith [hwR]
  · rw [if_neg hcase]
    push_cast
    norm_num
    linarith [hwR]

theorem identifyHighCrimeAreas_witness_nonempty :
    identifyHighCrimeAreas [⟨some (33, 73), "murder"⟩] ≠ [] := by
  unfold identifyHighCrimeAreas
  rw [if_neg (by simp)]
  simp only [ne_eq, List.map_eq_nil_iff]
  intro hx
  have hlen := (List.perm_insertionSort priorityGE
    ((qualifyingCells [⟨some (33, 73), "murder"⟩]).map fun kc => mkAvoidAreaRec kc.2)).length_eq
  rw [avoidAreaRecords] at hx
  rw [hx] at hlen
  have hq : qualifyingCells [⟨some (33, 73), "murder"⟩]
      = [((⌊(73 : ℚ) / GRID_SIZE⌋, ⌊(33 : ℚ) / GRID_SIZE⌋),
          initCell 33 73 (getCrimeSeverityWeight ⟨some (33, 73), "murder"⟩))] := by
    unfold qualifyingCells clusterGrid
    rw [List.foldl_cons, List.foldl_nil]
    have hstep : gridStep [] ⟨some (33, 73), "murder"⟩
        = [((⌊(73 : ℚ) / GRID_SIZE⌋, ⌊(33 : ℚ) / GRID_SIZE⌋),
            initCell 33 73 (getCrimeSeverityWeight ⟨some (33, 73), "murder"⟩))] := by
      rfl
    rw [hstep]
    have hqual : qualifiesHighCrime
        (initCell 33 73 (getCrimeSeverityWeight ⟨some (33, 73), "murder"⟩)) = true := by
      unfold qualifiesHighCrime initCell HIGH_CRIME_THRESHOLD
      simp
    rw [List.filter_cons, if_pos hqual]
    rfl
  rw [hq] at hlen
  simp at hlen

theorem policy_min_selection_witness :
    (calculateSafestPath ⟨33, 73⟩ ⟨34, 74⟩ [⟨some (33, 73), "murder"⟩]
        (.ok ⟨[((73 : ℚ), (33 : ℚ))], 0, 0⟩) (.ok ⟨[((74 : ℚ), (34 : ℚ))], 0, 0⟩)
        = .ok ⟨formatRouteForFrontend
            (if (scoreRouteByCrimeSafety ⟨[((74 : ℚ), (34 : ℚ))], 0, 0⟩
                    [⟨some (33, 73), "murder"⟩]).crimeScore
                < (scoreRouteByCrimeSafety ⟨[((73 : ℚ), (33 : ℚ))], 0, 0⟩
                    [⟨some (33, 73), "murder"⟩]).crimeScore
             then [((74 : ℚ), (34 : ℚ))] else [((73 : ℚ), (33 : ℚ))]), true, 1⟩)
    ∧ (if (scoreRouteByCrimeSafety ⟨[((74 : ℚ), (34 : ℚ))], 0, 0⟩
              [⟨some (33, 73), "murder"⟩]).crimeScore
          < (scoreRouteByCrimeSafety ⟨[((73 : ℚ), (33 : ℚ))], 0, 0⟩
              [⟨some (33, 73), "murder"⟩]).crimeScore
       then (scoreRouteByCrimeSafety ⟨[((74 : ℚ), (34 : ℚ))], 0, 0⟩
              [⟨some (33, 73), "murder"⟩]).crimeScore
       else (scoreRouteByCrimeSafety ⟨[((73 : ℚ), (33 : ℚ))], 0, 0⟩
              [⟨some (33, 73), "murder"⟩]).crimeScore)
        ≤ (scoreRouteByCrimeSafety ⟨[((73 : ℚ), (33 : ℚ))], 0, 0⟩
              [⟨some (33, 73), "murder"⟩]).crimeScore
    ∧ ∀ err : String, calculateSafestPath ⟨33, 73⟩ ⟨34, 74⟩ [⟨some (33, 73), "murder"⟩]
        (.ok ⟨[((73 : ℚ), (33 : ℚ))], 0, 0⟩) (.error err)
        = .ok ⟨formatRouteForFrontend [((73 : ℚ), (33 : ℚ))], true, 1⟩ :=
  policy_min_selection ⟨33, 73⟩ ⟨34, 74⟩ [⟨some (33, 73), "murder"⟩]
    ⟨[((73 : ℚ), (33 : ℚ))], 0, 0⟩ ⟨[((74 : ℚ), (34 : ℚ))], 0, 0⟩
    (by simp) (by simp)
    scoreRoute_witness_high
    identifyHighCrimeAreas_witness_nonempty

/-- A coordinate pair as sent in the POST /calculate-safest-path request
body; each field may be absent. -/
structure ReqPoint where
  latitude : Option ℚ
  longitude : Option ℚ
deriving DecidableEq

/-- The request body of POST /calculate-safest-path (`from`/`to` objects,
either of which may be absent). -/
structure SafePathRequest where
  fromPt : Option ReqPoint
  toPt : Option ReqPoint
deriving DecidableEq

/-- JavaScript truthiness of an optional numeric field: `undefined` and
`0` are falsy, every other number is truthy. -/
def truthyNum : Option ℚ → Bool
  | none => false
  | some q => decide (q ≠ 0)

/-- The 400 error message of the handler's validation guard. -/
def INVALID_COORDINATES_ERROR : String :=
  "Invalid coordinates provided. Both starting and destination points must include latitude and longitude."

/-- First observable step of the handler: either the 400 rejection of the
validation guard, or proceeding to fetch crime data (everything after the
guard). -/
inductive HandlerStep where
  | rejected400 (errorMsg : String)
  | fetchesCrimeData
deriving DecidableEq

/-- Embedding of the validation guard of the POST /calculate-safest-path
handler: `!from || !to || !from.latitude || !to.latitude ||
!from.longitude || !to.longitude` rejects with HTTP 400 before
`fetchCrimeLocationsForPathfinding` is called. -/
def safePathHandlerFirstStep (req : SafePathRequest) : HandlerStep :=
  match req.fromPt, req.toPt with
  | some f, some t =>
    if truthyNum f.latitude && truthyNum t.latitude
        && truthyNum f.longitude && truthyNum t.longitude then
      .fetchesCrimeData
    else .rejected400 INVALID_COORDINATES_ERROR
  | _, _ => .rejected400 INVALID_COORDINATES_ERROR

/-- A request coordinate field that the guard treats as missing: absent or
exactly 0. -/
def falsyCoord (o : Option ℚ) : Prop := o = none ∨ o = some 0

theorem truthyNum_eq_false_of_falsy (o : Option ℚ) (h : falsyCoord o) :
    truthyNum o = false := by
  rcases h with rfl | rfl <;> simp [truthyNum]

/-- Claim C10: the handler validates coordinates by truthiness, so any
request in which `from`/`to` is absent, or any of the four coordinate
fields is absent or equal to 0 (equator / prime meridian), is rejected
with the 400 invalid-coordinates error before any crime data is fetched. -/
theorem handler_rejects_zero_or_absent (req : SafePathRequest)
    (h : req.fromPt = none ∨ req.toPt = none
      ∨ (∃ f, req.fromPt = some f ∧ (falsyCoord f.latitude ∨ falsyCoord f.longitude))
      ∨ (∃ t, req.toPt = some t ∧ (falsyCoord t.latitude ∨ falsyCoord t.longitude))) :
    safePathHandlerFirstStep req = .rejected400 INVALID_COORDINATES_ERROR := by
  unfold safePathHandlerFirstStep
  rcases hf : req.fromPt with _ | f
  · rfl
  · rcases ht : req.toPt with _ | t
    · rfl
    · rcases h with h | h | ⟨f', hf', hfal⟩ | ⟨t', ht', hfal⟩
      · rw [hf] at h
        exact absurd h (by simp)
      · rw [ht] at h
        exact absurd h (by simp)
      · rw [hf] at hf'
        obtain rfl := Option.some_injective _ hf'
        rcases hfal with hfal | hfal <;>
          simp [truthyNum_eq_false_of_falsy _ hfal]
      · rw [ht] at ht'
        obtain rfl := Option.some_injective _ ht'
        rcases hfal with hfal | hfal <;>
          simp [truthyNum_eq_false_of_falsy _ hfal]

theorem handler_rejects_zero_or_absent_witness :
    safePathHandlerFirstStep
        ⟨some ⟨some 0, some 73⟩, some ⟨some 33, some 73⟩⟩
      = .rejected400 INVALID_COORDINATES_ERROR :=
  handler_rejects_zero_or_absent ⟨some ⟨some 0, some 73⟩, some ⟨some 33, some 73⟩⟩
    (Or.inr (Or.inr (Or.inl ⟨⟨some 0, some 73⟩, rfl, Or.inl (Or.inr rfl)⟩)))

/-- Grid width of the offline strategy (`GRID_WIDTH = 100`). -/
def GRID_WIDTH : ℤ := 100

/-- Grid height of the offline strategy (`GRID_HEIGHT = 100`). -/
def GRID_HEIGHT : ℤ := 100

/-- Southern latitude bound of the fixed Islamabad bounding box. -/
def LAT_MIN : ℚ := 33.5

/-- Northern latitude bound of the fixed Islamabad bounding box. -/
def LAT_MAX : ℚ := 33.8

/-- Western longitude bound of the fixed Islamabad bounding box. -/
def LNG_MIN : ℚ := 72.9

/-- Eastern longitude bound of the fixed Islamabad bounding box. -/
def LNG_MAX : ℚ := 73.2

/-- A grid cell index pair (x, y). -/
abbrev Cell := ℤ × ℤ

/-- Start/end coordinate-to-cell conversion of `findSafestPath`. -/
def toGridCell (p : GeoPoint) : Cell :=
  (⌊(p.lng - LNG_MIN) / (LNG_MAX - LNG_MIN) * (GRID_WIDTH : ℚ)⌋,
   ⌊(p.lat - LAT_MIN) / (LAT_MAX - LAT_MIN) * (GRID_HEIGHT : ℚ)⌋)

/-- The in-bounds test `0 ≤ x < GRID_WIDTH && 0 ≤ y < GRID_HEIGHT`. -/
def inGridBounds (c : Cell) : Bool :=
  decide (0 ≤ c.1 ∧ c.1 < GRID_WIDTH ∧ 0 ≤ c.2 ∧ c.2 < GRID_HEIGHT)

/-- Manhattan distance heuristic of the A* search. -/
def manhattanDistance (a b : Cell) : ℕ :=
  (a.1 - b.1).natAbs + (a.2 - b.2).natAbs

/-- Two cells are 4-directionally adjacent when their Manhattan distance
is exactly 1 (the |Δx| + |Δy| = 1 condition). -/
def adjacentCell (a b : Cell) : Prop := manhattanDistance a b = 1

theorem adjacentCell_symm {a b : Cell} (h : adjacentCell a b) : adjacentCell b a := by
  unfold adjacentCell manhattanDistance at h ⊢
  omega

/-- The 4-connected neighborhood in source order: up, right, down, left. -/
def neighborsOf (c : Cell) : List Cell :=
  [(c.1, c.2 - 1), (c.1 + 1, c.2), (c.1, c.2 + 1), (c.1 - 1, c.2)]

theorem neighborsOf_adjacent (c : Cell) : ∀ n ∈ neighborsOf c, adjacentCell n c := by
  intro n hn
  simp only [neighborsOf, List.mem_cons, List.not_mem_nil, or_false] at hn
  rcases hn with rfl | rfl | rfl | rfl <;>
    (unfold adjacentCell manhattanDistance; dsimp only; omega)

/-- Mutable state of the A* loop: open set, closed set, parent links,
path cost and estimated total cost maps (JS objects keyed by cell). -/
structure AStarState where
  openSet : List Cell
  closedSet : List Cell
  cameFrom : List (Cell × Cell)
  gScore : List (Cell × ℝ)
  fScore : List (Cell × ℝ)

/-- Parent-link lookup (JS object property access). -/
def cfLookup : List (Cell × Cell) → Cell → Option Cell
  | [], _ => none
  | (c, parent) :: rest, k => if c = k then some parent else cfLookup rest k

theorem cfLookup_mem {cf : List (Cell × Cell)} {c p : Cell}
    (h : cfLookup cf c = some p) : (c, p) ∈ cf := by
  induction cf with
  | nil => exact absurd h (by simp [cfLookup])
  | cons e rest ih =>
    obtain ⟨c', p'⟩ := e
    by_cases hc : c' = c
    · subst hc
      rw [cfLookup, if_pos rfl] at h
      obtain rfl := Option.some_injective _ h
      exact List.mem_cons_self _ _
    · rw [cfLookup, if_neg hc] at h
      exact List.mem_cons_of_mem _ (ih h)

/-- Score lookup with JS-undefined defaulting (every cell that is ever
read has previously been written, so the default is unreachable). -/
noncomputable def scoreLookup (m : List (Cell × ℝ)) (c : Cell) : ℝ :=
  (m.lookup c).getD 0

open Classical in
/-- The `openSet.reduce` scan choosing the node with the lowest f-score,
starting from `openSet[0]` (an undefined f-score compares false and keeps
the current lowest, as in JS). -/
noncomputable def lowestFNode (fScore : List (Cell × ℝ)) (first : Cell) (rest : List Cell) :
    Cell :=
  (first :: rest).foldl
    (fun lowest node =>
      if scoreLookup fScore node < scoreLookup fScore lowest then node else lowest)
    first

open Classical in
/-- Processing of one neighbor of `current`: skip when out of bounds or
already closed; compute the tentative g-score through `current`; push to
the open set when new; skip when an existing strictly-better (nonzero —
the JS `gScore[key] || Infinity` treats a stored 0 as Infinity) g-score
beats the tentative one; otherwise record the parent link and scores. -/
noncomputable def processNeighbor (cost : Cell → ℝ) (endCell current : Cell)
    (st : AStarState) (neighbor : Cell) : AStarState :=
  if inGridBounds neighbor = true then
    if neighbor ∈ st.closedSet then st
    else
      let tentativeG := scoreLookup st.gScore current + cost neighbor
      let inOpen := neighbor ∈ st.openSet
      let existing := st.gScore.lookup neighbor
      if inOpen ∧ (match existing with
          | some g => if g = 0 then False else tentativeG ≥ g
          | none => False) then st
      else
        { openSet := if inOpen then st.openSet else st.openSet ++ [neighbor]
          closedSet := st.closedSet
          cameFrom := (neighbor, current) :: st.cameFrom
          gScore := (neighbor, tentativeG) :: st.gScore
          fScore := (neighbor, tentativeG + (manhattanDistance neighbor endCell : ℝ))
            :: st.fScore }
  else st

/-- Path reconstruction by walking parent links back from the goal,
prepending each parent (`path.unshift`); the fuel bound stands in for the
source's implicit termination on the acyclic parent map. -/
def reconstructCells : ℕ → List (Cell × Cell) → Cell → List Cell
  | 0, _, current => [current]
  | fuel + 1, cameFrom, current =>
    match cfLookup cameFrom current with
    | none => [current]
    | some parent => reconstructCells fuel cameFrom parent ++ [current]

open Classical in
/-- The A* main loop of `findSafestPath`: pick the open node with lowest
f-score; reconstruct the path when it is the goal; otherwise move it to
the closed set and process its four neighbors.  Fuel bounds the iteration
count (the source loop terminates because the closed set grows). -/
noncomputable def astarLoop (cost : Cell → ℝ) (endCell : Cell) :
    ℕ → AStarState → List Cell
  | 0, _ => []
  | fuel + 1, st =>
    match st.openSet with
    | [] => []
    | o :: os =>
      let current := lowestFNode st.fScore o os
      if current = endCell then reconstructCells (fuel + 1) st.cameFrom current
      else
        let st1 : AStarState :=
          { openSet := (o :: os).erase current
            closedSet := current :: st.closedSet
            cameFrom := st.cameFrom
            gScore := st.gScore
            fScore := st.fScore }
        let st2 := (neighborsOf current).foldl (processNeighbor cost endCell current) st1
        astarLoop cost endCell fuel st2

open Classical in
/-- Embedding of the grid-search `findSafestPath`: convert the endpoints
to grid cells, return the empty path when either lies outside the fixed
bounding box, otherwise run A* from the start cell.  The weighted grid is
abstracted as a cost function on cells. -/
noncomputable def findSafestPath (cost : Cell → ℝ) (startPoint endPoint : GeoPoint)
    (fuel : ℕ) : List Cell :=
  let start := toGridCell startPoint
  let endCell := toGridCell endPoint
  if inGridBounds start = true ∧ inGridBounds endCell = true then
    astarLoop cost endCell fuel
      { openSet := [start]
        closedSet := []
        cameFrom := []
        gScore := [(start, 0)]
        fScore := [(start, (manhattanDistance start endCell : ℝ))] }
  else []

/-- Latitude/longitude stored in a grid cell by `createCityGrid`, read
back during path reconstruction. -/
def cellLatLng (c : Cell) : ℚ × ℚ :=
  (LAT_MIN + (LAT_MAX - LAT_MIN) * ((c.2 : ℚ) / (GRID_HEIGHT : ℚ)),
   LNG_MIN + (LNG_MAX - LNG_MIN) * ((c.1 : ℚ) / (GRID_WIDTH : ℚ)))

/-- The {latitude, longitude} point list the grid search returns to the
caller. -/
noncomputable def findSafestPathPoints (cost : Cell → ℝ) (startPoint endPoint : GeoPoint)
    (fuel : ℕ) : List (ℚ × ℚ) :=
  (findSafestPath cost startPoint endPoint fuel).map cellLatLng

/-- Every recorded parent link joins two 4-adjacent cells. -/
def cameFromAdjacent (cf : List (Cell × Cell)) : Prop :=
  ∀ p ∈ cf, adjacentCell p.1 p.2

theorem processNeighbor_cameFrom_cases (cost : Cell → ℝ) (endCell current : Cell)
    (st : AStarState) (n : Cell) :
    (processNeighbor cost endCell current st n).cameFrom = st.cameFrom
    ∨ (processNeighbor cost endCell current st n).cameFrom = (n, current) :: st.cameFrom := by
  unfold processNeighbor
  split
  · split
    · left
      rfl
    · dsimp only
      split
      · left
        rfl
      · right
        rfl
  · left
    rfl

theorem foldl_processNeighbor_adjacent (cost : Cell → ℝ) (endCell current : Cell)
    (ns : List Cell) (hns : ∀ n ∈ ns, adjacentCell n current) (st : AStarState)
    (hcf : cameFromAdjacent st.cameFrom) :
    cameFromAdjacent ((ns.foldl (processNeighbor cost endCell current) st).cameFrom) := by
  induction ns generalizing st with
  | nil => exact hcf
  | cons n ns ih =>
    rw [List.foldl_cons]
    apply ih (fun x hx => hns x (List.mem_cons_of_mem _ hx))
    rcases processNeighbor_cameFrom_cases cost endCell current st n with hcase | hcase
    · rw [hcase]
      exact hcf
    · rw [hcase]
      intro p hp
      rcases List.mem_cons.mp hp with rfl | hp
      · exact hns n (List.mem_cons_self _ _)
      · exact hcf p hp

theorem reconstructCells_getLast (fuel : ℕ) (cf : List (Cell × Cell)) (current : Cell) :
    (reconstructCells fuel cf current).getLast? = some current := by
  induction fuel generalizing current with
  | zero => rfl
  | succ n ih =>
    unfold reconstructCells
    rcases h : cfLookup cf current with _ | parent
    · rfl
    · dsimp only
      rw [List.getLast?_concat]

theorem reconstructCells_chain (fuel : ℕ) (cf : List (Cell × Cell))
    (hcf : cameFromAdjacent cf) (current : Cell) :
    List.Chain' adjacentCell (reconstructCells fuel cf current) := by
  induction fuel generalizing current with
  | zero => simp [reconstructCells]
  | succ n ih =>
    unfold reconstructCells
    rcases h : cfLookup cf current with _ | parent
    · simp
    · dsimp only
      apply List.Chain'.append (ih parent) (by simp)
      intro x hx y hy
      rw [reconstructCells_getLast] at hx
      simp only [Option.mem_def, Option.some_inj] at hx
      simp only [List.head?_cons, Option.mem_def, Option.some_inj] at hy
      subst hx
      subst hy
      exact adjacentCell_symm (hcf (current, parent) (cfLookup_mem h))

theorem astarLoop_chain (cost : Cell → ℝ) (endCell : Cell) (fuel : ℕ) (st : AStarState)
    (hcf : cameFromAdjacent st.cameFrom) :
    List.Chain' adjacentCell (astarLoop cost endCell fuel st) := by
  induction fuel generalizing st with
  | zero => simp [astarLoop]
  | succ n ih =>
    rw [astarLoop]
    rcases ho : st.openSet with _ | ⟨o, os⟩
    · simp
    · dsimp only
      split
      · exact reconstructCells_chain _ _ hcf _
      · exact ih _ (foldl_processNeighbor_adjacent cost endCell _ _
          (neighborsOf_adjacent _) _ hcf)

/-- Claim C9: for every weighted grid (cost function) and endpoints, the
grid search returns the empty sequence when the start or end cell lies
outside the fixed bounding box, and every path it returns is
4-directionally connected — consecutive cells are at Manhattan distance
exactly 1. -/
theorem findSafestPath_bounds_and_connected (cost : Cell → ℝ) (s e : GeoPoint)
    (fuel : ℕ) :
    (¬ (inGridBounds (toGridCell s) = true ∧ inGridBounds (toGridCell e) = true) →
      findSafestPath cost s e fuel = [])
    ∧ List.Chain' adjacentCell (findSafestPath cost s e fuel) := by
  constructor
  · intro h
    unfold findSafestPath
    dsimp only
    rw [if_neg h]
  · unfold findSafestPath
    dsimp only
    split
    · apply astarLoop_chain
      intro p hp
      exact absurd hp (by simp)
    · simp

theorem findSafestPath_bounds_and_connected_witness :
    findSafestPath (fun _ => 1) ⟨0, 0⟩ ⟨34, 73⟩ 50 = []
    ∧ List.Chain' adjacentCell (findSafestPath (fun _ => 1) ⟨0, 0⟩ ⟨34, 73⟩ 50) :=
  ⟨(findSafestPath_bounds_and_connected (fun _ => 1) ⟨0, 0⟩ ⟨34, 73⟩ 50).1
    (by
      intro hc
      have h1 := hc.1
      have hcell : toGridCell ⟨0, 0⟩ = (-24300, -11167) := by
        unfold toGridCell LAT_MIN LAT_MAX LNG_MIN LNG_MAX GRID_WIDTH GRID_HEIGHT
        dsimp only
        rw [Prod.mk.injEq]
        constructor <;> norm_num
      rw [hcell] at h1
      exact absurd h1 (by decide)),
    (findSafestPath_bounds_and_connected (fun _ => 1) ⟨0, 0⟩ ⟨34, 73⟩ 50).2⟩
